import Mathlib

/-!
Verification development for a small task-tracking microservice system
(api-gateway, task-service, user-service, notification-service), each
service a thin gRPC server over a MongoDB collection.

The services are embedded shallowly: a collection is an association list
from identifier strings to records, the MongoDB driver operations that
the services call (`FindOne`, `UpdateOne`, `DeleteOne`, `Find` with
skip/limit, `CountDocuments`, `ObjectIDFromHex`) are modelled per the
store-adapter contract of the specification, and bcrypt is an abstract
hash parameter.
-/

namespace TodoMicro

/-- Modelled from the spec: identifiers are fixed-width hex strings
(`primitive.ObjectIDFromHex` of the MongoDB driver, which is not part of
the repository, accepts exactly strings of 24 hex digits). -/
def isHexDigit (c : Char) : Bool :=
  ('0' ≤ c && c ≤ '9') || ('a' ≤ c && c ≤ 'f') || ('A' ≤ c && c ≤ 'F')

/-- Modelled from the spec: a well-formed identifier is a 24-character hex
string; `ObjectIDFromHex` fails on anything else before any store access. -/
def isValidObjectId (s : String) : Bool :=
  s.length == 24 && s.toList.all isHexDigit

/-- Service-level failures surfaced by the embedded gRPC handlers. -/
inductive SvcError where
  | invalidId
  | notFound
  | authFailed
  deriving DecidableEq, Repr

/-! ## Task service (src/task-service/main.go) -/

/-- The `Task` document stored in the `tasks` collection. -/
structure Task where
  title : String
  description : String
  userId : String
  completed : Bool
  dueDate : String
  createdAt : String
  updatedAt : String
  deriving DecidableEq, Repr

/-- A task collection: association list from identifier to document. -/
abbrev TaskStore := List (String × Task)

/-- Modelled from the spec: `FindOne {_id: oid}` on a collection returns the
first document with the given identifier, or `NotFound` when absent. -/
def findTask (store : TaskStore) (id : String) : Option Task :=
  (store.find? (fun p => p.1 == id)).map (·.2)

/-- Embeds `pb.Task`, the task record as returned over the wire. -/
structure TaskView where
  id : String
  title : String
  description : String
  userId : String
  completed : Bool
  dueDate : String
  createdAt : String
  updatedAt : String
  deriving DecidableEq, Repr

def taskView (id : String) (t : Task) : TaskView :=
  { id := id, title := t.title, description := t.description,
    userId := t.userId, completed := t.completed, dueDate := t.dueDate,
    createdAt := t.createdAt, updatedAt := t.updatedAt }

/-- Embeds `pb.CreateTaskRequest`: the fields CreateTask reads from its request. -/
structure CreateTaskRequest where
  title : String
  description : String
  userId : String
  dueDate : String
  deriving DecidableEq, Repr

/-- Embeds `CreateTask`: builds the document with `Completed: false` and both
timestamps set to `now`, inserts it, and echoes it back with the new id. -/
def CreateTask (req : CreateTaskRequest) (now newId : String) :
    TaskView × Task :=
  let task : Task :=
    { title := req.title, description := req.description,
      userId := req.userId, completed := false, dueDate := req.dueDate,
      createdAt := now, updatedAt := now }
  (taskView newId task, task)

/-- Embeds `GetTask`: `ObjectIDFromHex` first (failing before any store access),
then `FindOne` on the collection. -/
def GetTask (store : TaskStore) (id : String) : Except SvcError TaskView :=
  if isValidObjectId id then
    match findTask store id with
    | some t => .ok (taskView id t)
    | none => .error .notFound
  else .error .invalidId

/-- Embeds `pb.UpdateTaskRequest`: the fields UpdateTask reads from its request. -/
structure UpdateTaskRequest where
  id : String
  title : String
  description : String
  completed : Bool
  dueDate : String
  deriving DecidableEq, Repr

/-- The `$set` patch UpdateTask applies: title, description, completed,
due_date, and a fresh `updated_at`; `created_at` and `user_id` are kept. -/
def applyTaskPatch (req : UpdateTaskRequest) (now : String) (t : Task) : Task :=
  { t with title := req.title, description := req.description,
           completed := req.completed, dueDate := req.dueDate,
           updatedAt := now }

/-- Modelled from the spec: `UpdateOne {_id: oid}` patches the matching
document when present and succeeds without error either way (it never
reports `NotFound`; the read-back does). -/
def updateTaskFields (store : TaskStore) (req : UpdateTaskRequest)
    (now : String) : TaskStore :=
  store.map (fun p => if p.1 == req.id then (p.1, applyTaskPatch req now p.2) else p)

/-- Embeds `UpdateTask`: validate the id, apply the `$set` patch via `UpdateOne`,
then re-read with `FindOne` and return the post-update document; a missing
id surfaces as the read-back's `NotFound`. -/
def UpdateTask (store : TaskStore) (req : UpdateTaskRequest) (now : String) :
    Except SvcError (TaskView × TaskStore) :=
  if isValidObjectId req.id then
    let store' := updateTaskFields store req now
    match findTask store' req.id with
    | some t => .ok (taskView req.id t, store')
    | none => .error .notFound
  else .error .invalidId

/-- Modelled from the spec: `DeleteOne {_id: oid}` removes the matching
document when present and succeeds without error either way. -/
def deleteTaskDoc (store : TaskStore) (id : String) : TaskStore :=
  store.eraseP (fun p => p.1 == id)

/-- Embeds `DeleteTask`: validate the id, `DeleteOne`, answer `Success: true`
whether or not a document was present. -/
def DeleteTask (store : TaskStore) (id : String) :
    Except SvcError (Bool × TaskStore) :=
  if isValidObjectId id then
    .ok (true, deleteTaskDoc store id)
  else .error .invalidId

/-- Embeds `pb.ListTasksRequest`. -/
structure ListTasksRequest where
  userId : String
  completed : Bool
  page : Int
  limit : Int
  deriving DecidableEq, Repr

/-- The filter ListTasks builds: always `user_id`, plus `completed: true`
only when the request's completed flag is set. -/
def taskMatches (req : ListTasksRequest) (t : Task) : Bool :=
  t.userId == req.userId && (!req.completed || t.completed)

/-- Modelled from the spec: the store's `Find` with skip/limit options
returns the page window of the filtered sequence; `limit ≤ 0` yields no
items, and a negative skip yields the window from the start. -/
def queryWindow (limit skip : Int) (rows : List α) : List α :=
  if limit ≤ 0 then []
  else (rows.drop skip.toNat).take limit.toNat

/-- Embeds `ListTasks`: `Find` on the filter with `limit` and `skip = page*limit`,
then `CountDocuments` on the same filter for the total. -/
def ListTasks (store : TaskStore) (req : ListTasksRequest) :
    List TaskView × Int :=
  let filtered := store.filter (fun p => taskMatches req p.2)
  (queryWindow req.limit (req.page * req.limit) (filtered.map (fun p => taskView p.1 p.2)),
   filtered.length)

/-! ## User service (user-service main.go) -/

/-- The `User` document stored in the `users` collection; `password` holds
the bcrypt hash, never set from the plaintext directly. -/
structure User where
  username : String
  email : String
  password : String
  createdAt : String
  updatedAt : String
  deriving DecidableEq, Repr

abbrev UserStore := List (String × User)

/-- Modelled from the spec: `FindOne {_id: oid}` on the users collection. -/
def findUser (store : UserStore) (id : String) : Option User :=
  (store.find? (fun p => p.1 == id)).map (·.2)

/-- Embeds `pb.User` as built by the service's responses: id, username, email and
timestamps only — the struct literal never sets a password field. -/
structure UserView where
  id : String
  username : String
  email : String
  createdAt : String
  updatedAt : String
  deriving DecidableEq, Repr

def userView (id : String) (u : User) : UserView :=
  { id := id, username := u.username, email := u.email,
    createdAt := u.createdAt, updatedAt := u.updatedAt }

/-- Embeds `pb.CreateUserRequest`. -/
structure CreateUserRequest where
  username : String
  email : String
  password : String
  deriving DecidableEq, Repr

/-- Embeds `CreateUser`, parameterized by the bcrypt hash (an external
collaborator): hashes the request password, stores the hash, stamps both
timestamps to `now`, and returns the public fields with the new id. -/
def CreateUser (hash : String → String) (req : CreateUserRequest)
    (now newId : String) : UserView × User :=
  let user : User :=
    { username := req.username, email := req.email,
      password := hash req.password, createdAt := now, updatedAt := now }
  (userView newId user, user)

/-- Embeds `GetUser`: id validation, then `FindOne`. -/
def GetUser (store : UserStore) (id : String) : Except SvcError UserView :=
  if isValidObjectId id then
    match findUser store id with
    | some u => .ok (userView id u)
    | none => .error .notFound
  else .error .invalidId

/-- Embeds `pb.UpdateUserRequest`; in proto3 an omitted password arrives as `""`. -/
structure UpdateUserRequest where
  id : String
  username : String
  email : String
  password : String
  deriving DecidableEq, Repr

/-- The `$set` patch UpdateUser applies: username, email and a fresh
`updated_at` always; the password key is added only when the request's
password is non-empty, and then holds the bcrypt hash. -/
def applyUserPatch (hash : String → String) (req : UpdateUserRequest)
    (now : String) (u : User) : User :=
  let u' : User :=
    { u with username := req.username, email := req.email, updatedAt := now }
  if req.password ≠ "" then { u' with password := hash req.password } else u'

/-- Modelled from the spec: `UpdateOne {_id: oid}` on the users collection;
no error when the id is absent. -/
def updateUserFields (hash : String → String) (store : UserStore)
    (req : UpdateUserRequest) (now : String) : UserStore :=
  store.map (fun p => if p.1 == req.id then (p.1, applyUserPatch hash req now p.2) else p)

/-- Embeds `UpdateUser`: validate the id, build the patch (hashing a non-empty new
password), `UpdateOne`, then re-read via `FindOne` for the response. -/
def UpdateUser (hash : String → String) (store : UserStore)
    (req : UpdateUserRequest) (now : String) :
    Except SvcError (UserView × UserStore) :=
  if isValidObjectId req.id then
    let store' := updateUserFields hash store req now
    match findUser store' req.id with
    | some u => .ok (userView req.id u, store')
    | none => .error .notFound
  else .error .invalidId

/-- Embeds `DeleteUser`: validate the id, `DeleteOne`, answer `Success: true`
whether or not a document was present. -/
def DeleteUser (store : UserStore) (id : String) :
    Except SvcError (Bool × UserStore) :=
  if isValidObjectId id then
    .ok (true, store.eraseP (fun p => p.1 == id))
  else .error .invalidId

/-- Embeds `pb.AuthRequest`. -/
structure AuthRequest where
  email : String
  password : String
  deriving DecidableEq, Repr

/-- Modelled from the spec: `FindOne {email: ...}` returns the first user
document with the given email, or `NotFound` when absent. -/
def findUserByEmail (store : UserStore) (email : String) :
    Option (String × User) :=
  store.find? (fun p => p.2.email == email)

/-- Embeds `AuthenticateUser`, parameterized by the bcrypt comparison (stored hash
against supplied plaintext): lookup by email fails with the store's
not-found error, a hash mismatch fails with the comparison's error, and on
success a hardcoded token plus the public fields are returned. -/
def AuthenticateUser (checkPw : String → String → Bool) (store : UserStore)
    (req : AuthRequest) : Except SvcError (String × UserView) :=
  match findUserByEmail store req.email with
  | none => .error .notFound
  | some (id, u) =>
    if checkPw u.password req.password then
      .ok ("sample-jwt-token", userView id u)
    else .error .authFailed

/-! ## Notification service (src/notification-service/main.go) -/

/-- The `Notification` document. -/
structure Notification where
  userId : String
  message : String
  read : Bool
  createdAt : String
  deriving DecidableEq, Repr

abbrev NotifStore := List (String × Notification)

/-- Embeds `pb.Notification`. -/
structure NotificationView where
  id : String
  userId : String
  message : String
  read : Bool
  createdAt : String
  deriving DecidableEq, Repr

def notificationView (id : String) (n : Notification) : NotificationView :=
  { id := id, userId := n.userId, message := n.message, read := n.read,
    createdAt := n.createdAt }

/-- Embeds `pb.GetNotificationsRequest`. -/
structure GetNotificationsRequest where
  userId : String
  unreadOnly : Bool
  page : Int
  limit : Int
  deriving DecidableEq, Repr

/-- The filter GetNotifications builds: always `user_id`, plus
`read: false` only when the unread-only flag is set. -/
def notifMatches (req : GetNotificationsRequest) (n : Notification) : Bool :=
  n.userId == req.userId && (!req.unreadOnly || !n.read)

/-- Modelled from the spec: the `created_at: -1` sort option orders the
filtered documents newest-first before the skip/limit window applies. -/
def sortByCreatedDesc (rows : List (String × Notification)) :
    List (String × Notification) :=
  rows.mergeSort (fun a b => b.2.createdAt ≤ a.2.createdAt)

/-- Embeds `GetNotifications`: `Find` on the filter sorted newest-first with
`limit` and `skip = page*limit`, then `CountDocuments` on the same filter. -/
def GetNotifications (store : NotifStore) (req : GetNotificationsRequest) :
    List NotificationView × Int :=
  let filtered := store.filter (fun p => notifMatches req p.2)
  (queryWindow req.limit (req.page * req.limit)
    ((sortByCreatedDesc filtered).map (fun p => notificationView p.1 p.2)),
   filtered.length)

/-! ## Gateway handlers (src/api-gateway/main.go)

Each handler decodes, calls its backend under a timeout, and writes an
HTTP status: the success code on `.ok`, and `500` on any backend error —
the gateway never distinguishes invalid-id or not-found errors. The auth
handler alone maps every backend error to `401`. We model the status each
handler writes once the backend has answered. -/

def httpStatusOf (r : Except SvcError α) (okCode : Nat) : Nat :=
  match r with
  | .ok _ => okCode
  | .error _ => 500

/-- Embeds `getTaskHandler`: 200 on success, 500 on any backend error. -/
def getTaskHandlerStatus (store : TaskStore) (id : String) : Nat :=
  httpStatusOf (GetTask store id) 200

/-- Embeds `updateTaskHandler`: the path id overrides the body id. -/
def updateTaskHandlerStatus (store : TaskStore) (id : String)
    (req : UpdateTaskRequest) (now : String) : Nat :=
  httpStatusOf (UpdateTask store { req with id := id } now) 200

/-- Embeds `deleteTaskHandler`. -/
def deleteTaskHandlerStatus (store : TaskStore) (id : String) : Nat :=
  httpStatusOf (DeleteTask store id) 200

/-- Embeds `getUserHandler`. -/
def getUserHandlerStatus (store : UserStore) (id : String) : Nat :=
  httpStatusOf (GetUser store id) 200

/-- Embeds `updateUserHandler`: the path id overrides the body id. -/
def updateUserHandlerStatus (hash : String → String) (store : UserStore)
    (id : String) (req : UpdateUserRequest) (now : String) : Nat :=
  httpStatusOf (UpdateUser hash store { req with id := id } now) 200

/-- Embeds `deleteUserHandler`. -/
def deleteUserHandlerStatus (store : UserStore) (id : String) : Nat :=
  httpStatusOf (DeleteUser store id) 200

/-- Embeds `authHandler`: 200 on success, and 401 `Authentication failed` on any
error from `AuthenticateUser` — email-not-found and wrong-password alike. -/
def authHandlerStatus (checkPw : String → String → Bool) (store : UserStore)
    (req : AuthRequest) : Nat :=
  match AuthenticateUser checkPw store req with
  | .ok _ => 200
  | .error _ => 401

/-! ## Store lemmas -/

/-- Patching the value at a key commutes with looking that key up: the
lookup after an `UpdateOne`-style map is the patched original lookup. -/
theorem find?_map_patch (f : α → α) (key : String) (store : List (String × α)) :
    List.find? (fun p => p.1 == key)
        (store.map (fun p => if p.1 == key then (p.1, f p.2) else p))
      = Option.map (fun p : String × α => (p.1, f p.2))
          (List.find? (fun p => p.1 == key) store) := by
  induction store with
  | nil => simp
  | cons hd tl ih =>
    by_cases h : hd.1 == key
    · simp only [List.map_cons, if_pos h]
      rw [@List.find?_cons_of_pos _ (fun p => p.1 == key) (hd.1, f hd.2)
            (tl.map (fun p => if p.1 == key then (p.1, f p.2) else p)) h,
          @List.find?_cons_of_pos _ (fun p => p.1 == key) hd tl h]
      simp
    · simp only [List.map_cons, if_neg h]
      rw [@List.find?_cons_of_neg _ (fun p => p.1 == key) hd
            (tl.map (fun p => if p.1 == key then (p.1, f p.2) else p)) h,
          @List.find?_cons_of_neg _ (fun p => p.1 == key) hd tl h]
      exact ih

/-- An `UpdateOne`-style map at an absent key leaves the store unchanged. -/
theorem map_patch_of_find?_none (f : α → α) (key : String)
    (store : List (String × α))
    (h : List.find? (fun p => p.1 == key) store = none) :
    store.map (fun p => if p.1 == key then (p.1, f p.2) else p) = store := by
  have h' := List.find?_eq_none.mp h
  induction store with
  | nil => simp
  | cons hd tl ih =>
    simp only [List.map_cons]
    rw [if_neg (h' hd (List.mem_cons_self hd tl))]
    have htl : List.find? (fun p => p.1 == key) tl = none :=
      List.find?_eq_none.mpr (fun x hx => h' x (List.mem_cons_of_mem _ hx))
    rw [ih htl (List.find?_eq_none.mp htl)]

/-- A `DeleteOne`-style erase at an absent key leaves the store unchanged. -/
theorem eraseP_of_find?_none (key : String) (store : List (String × α))
    (h : List.find? (fun p => p.1 == key) store = none) :
    store.eraseP (fun p => p.1 == key) = store :=
  List.eraseP_of_forall_not (List.find?_eq_none.mp h)

/-- The read-back after `updateTaskFields` sees exactly the patched task. -/
theorem findTask_updateTaskFields (store : TaskStore)
    (req : UpdateTaskRequest) (now : String) :
    findTask (updateTaskFields store req now) req.id
      = (findTask store req.id).map (applyTaskPatch req now) := by
  unfold findTask updateTaskFields
  rw [find?_map_patch]
  cases List.find? (fun p => p.1 == req.id) store <;> simp

/-- The read-back after `updateUserFields` sees exactly the patched user. -/
theorem findUser_updateUserFields (hash : String → String) (store : UserStore)
    (req : UpdateUserRequest) (now : String) :
    findUser (updateUserFields hash store req now) req.id
      = (findUser store req.id).map (applyUserPatch hash req now) := by
  unfold findUser updateUserFields
  rw [find?_map_patch]
  cases List.find? (fun p => p.1 == req.id) store <;> simp

/-- A page window never exceeds the (clamped) limit. -/
theorem length_queryWindow_le (limit skip : Int) (rows : List α) :
    (queryWindow limit skip rows).length ≤ limit.toNat := by
  unfold queryWindow
  split
  · simp
  · calc ((rows.drop skip.toNat).take limit.toNat).length
        = min limit.toNat (rows.drop skip.toNat).length :=
          List.length_take limit.toNat (rows.drop skip.toNat)
      _ ≤ limit.toNat := Nat.min_le_left _ _

/-- The public view of a patched user shows the requested username and
email, the fresh update timestamp, and the original creation timestamp —
for any password field, supplied or not. -/
theorem userView_applyUserPatch (hash : String → String)
    (req : UpdateUserRequest) (now : String) (key : String) (u : User) :
    userView key (applyUserPatch hash req now u)
      = ⟨key, req.username, req.email, u.createdAt, now⟩ := by
  unfold applyUserPatch userView
  split <;> rfl

/-! ## Claims -/

/-- C9: for every valid Task creation, the returned Task has `completed`
false and `created_at` equal to `updated_at` (both stamped to the same
server-side time), regardless of the request's contents; the stored
document agrees. -/
theorem C9_create_task_defaults (req : CreateTaskRequest) (now newId : String) :
    (CreateTask req now newId).1.completed = false ∧
    (CreateTask req now newId).1.createdAt = (CreateTask req now newId).1.updatedAt ∧
    (CreateTask req now newId).1.createdAt = now ∧
    (CreateTask req now newId).2.completed = false ∧
    (CreateTask req now newId).2.createdAt = (CreateTask req now newId).2.updatedAt := by
  refine ⟨rfl, rfl, rfl, rfl, rfl⟩

/-- C8: Delete is idempotent: for every well-formed identifier, both
DeleteTask and DeleteUser answer `Success: true` whether or not a record
with that identifier exists, and deleting an absent id succeeds leaving
the store unchanged. -/
theorem C8_delete_idempotent (id : String) (h : isValidObjectId id = true)
    (ts : TaskStore) (us : UserStore) :
    DeleteTask ts id = .ok (true, deleteTaskDoc ts id) ∧
    DeleteUser us id = .ok (true, us.eraseP (fun p => p.1 == id)) ∧
    (findTask ts id = none → DeleteTask ts id = .ok (true, ts)) ∧
    (findUser us id = none → DeleteUser us id = .ok (true, us)) := by
  refine ⟨?_, ?_, ?_, ?_⟩
  · simp [DeleteTask, h]
  · simp [DeleteUser, h]
  · intro habs
    have hf : List.find? (fun p => p.1 == id) ts = none := by
      simpa [findTask] using habs
    simp [DeleteTask, h, deleteTaskDoc, eraseP_of_find?_none id ts hf]
  · intro habs
    have hf : List.find? (fun p => p.1 == id) us = none := by
      simpa [findUser] using habs
    simp [DeleteUser, h, eraseP_of_find?_none id us hf]

/-- C8 witness: deleting the absent well-formed id
`0123456789abcdef01234567` from empty stores returns success. -/
theorem C8_delete_idempotent_witness :
    DeleteTask [] "0123456789abcdef01234567" = .ok (true, []) ∧
    DeleteUser [] "0123456789abcdef01234567" = .ok (true, []) := by
  have h := C8_delete_idempotent "0123456789abcdef01234567" (by decide) [] []
  exact ⟨h.2.2.1 rfl, h.2.2.2 rfl⟩

/-- C1 counterexample: the claim promises HTTP 400 for a malformed path
identifier, but the gateway maps every backend error to 500: on the GET
task route with the malformed (empty) identifier the written status is
500, not 400. -/
theorem C1_counterexample :
    getTaskHandlerStatus [] "" = 500 ∧ getTaskHandlerStatus [] "" ≠ 400 := by
  refine ⟨rfl, by decide⟩

/-- C1 (amended): for every Get/Update/Delete route, a malformed path
identifier makes the backend fail with `invalidId` before any store
lookup (the service result is a constant, independent of the store
contents), but the gateway surfaces it as HTTP 500, not 400. -/
theorem C1_malformed_id_before_store (id : String)
    (h : isValidObjectId id = false) (ts : TaskStore) (us : UserStore)
    (treq : UpdateTaskRequest) (ureq : UpdateUserRequest)
    (hash : String → String) (now : String) :
    GetTask ts id = .error .invalidId ∧
    UpdateTask ts { treq with id := id } now = .error .invalidId ∧
    DeleteTask ts id = .error .invalidId ∧
    GetUser us id = .error .invalidId ∧
    UpdateUser hash us { ureq with id := id } now = .error .invalidId ∧
    DeleteUser us id = .error .invalidId ∧
    getTaskHandlerStatus ts id = 500 ∧
    updateTaskHandlerStatus ts id treq now = 500 ∧
    deleteTaskHandlerStatus ts id = 500 ∧
    getUserHandlerStatus us id = 500 ∧
    updateUserHandlerStatus hash us id ureq now = 500 ∧
    deleteUserHandlerStatus us id = 500 := by
  simp [GetTask, UpdateTask, DeleteTask, GetUser, UpdateUser, DeleteUser,
        getTaskHandlerStatus, updateTaskHandlerStatus, deleteTaskHandlerStatus,
        getUserHandlerStatus, updateUserHandlerStatus, deleteUserHandlerStatus,
        httpStatusOf, h]

/-- C1 (amended) witness: the malformed id `zz` is rejected with
`invalidId` and status 500 on the GET and DELETE task routes. -/
theorem C1_malformed_id_before_store_witness :
    GetTask [] "zz" = .error .invalidId ∧
    getTaskHandlerStatus [] "zz" = 500 ∧
    deleteTaskHandlerStatus [] "zz" = 500 := by
  have h := C1_malformed_id_before_store "zz" (by decide) [] []
    ⟨"", "", "", false, ""⟩ ⟨"", "", "", ""⟩ (fun s => s) "T0"
  exact ⟨h.1, h.2.2.2.2.2.2.1, h.2.2.2.2.2.2.2.2.1⟩

/-- C10: the completed flag in a ListTasks request only narrows the result
to completed tasks: with the flag unset the filter tests `user_id` alone
(so a page may hold completed and incomplete tasks alike), every match is
owned by the requested user, and any request that matches some task also
matches every completed task of that same user — no request selects only
incomplete tasks. -/
theorem C10_completed_only_narrows (req : ListTasksRequest) :
    (req.completed = false →
      ∀ t : Task, taskMatches req t = (t.userId == req.userId)) ∧
    (∀ t : Task, taskMatches req t = true → t.userId = req.userId) ∧
    (∀ t t' : Task, taskMatches req t = true → t'.userId = t.userId →
      t'.completed = true → taskMatches req t' = true) := by
  refine ⟨?_, ?_, ?_⟩
  · intro hc t
    simp [taskMatches, hc]
  · intro t ht
    have h1 := (Bool.and_eq_true _ _).mp ht
    exact eq_of_beq h1.1
  · intro t t' ht hu hc
    have h1 := (Bool.and_eq_true _ _).mp ht
    simp [taskMatches, hu, eq_of_beq h1.1, hc]

/-- C10 witness: with the completed flag unset, the filter for user `u1`
accepts a completed and an incomplete task of `u1` alike. -/
theorem C10_completed_only_narrows_witness :
    taskMatches ⟨"u1", false, 0, 10⟩ ⟨"a", "", "u1", true, "", "", ""⟩ = true ∧
    taskMatches ⟨"u1", false, 0, 10⟩ ⟨"b", "", "u1", false, "", "", ""⟩ = true := by
  have h := (C10_completed_only_narrows ⟨"u1", false, 0, 10⟩).1 rfl
  rw [h ⟨"a", "", "u1", true, "", "", ""⟩, h ⟨"b", "", "u1", false, "", "", ""⟩]
  exact ⟨rfl, rfl⟩

/-- C2: for every well-formed identifier, UpdateTask applies the field
patch and then re-reads: when no task exists under the id the patch call
itself leaves the store unchanged (it does not fail) and the update fails
with the read-back's `NotFound`; when a task exists the returned entity is
the post-update state whose patched fields (title, description, completed,
due date, update timestamp) equal the requested values. -/
theorem C2_update_read_back (store : TaskStore) (req : UpdateTaskRequest)
    (now : String) (hid : isValidObjectId req.id = true)
    (hash : String → String) (ustore : UserStore) (ureq : UpdateUserRequest)
    (unow : String) (huid : isValidObjectId ureq.id = true) :
    (findTask store req.id = none →
      UpdateTask store req now = .error .notFound ∧
      updateTaskFields store req now = store) ∧
    (∀ t : Task, findTask store req.id = some t →
      UpdateTask store req now =
        .ok (⟨req.id, req.title, req.description, t.userId, req.completed,
              req.dueDate, t.createdAt, now⟩,
             updateTaskFields store req now)) ∧
    (findUser ustore ureq.id = none →
      UpdateUser hash ustore ureq unow = .error .notFound ∧
      updateUserFields hash ustore ureq unow = ustore) ∧
    (∀ u : User, findUser ustore ureq.id = some u →
      UpdateUser hash ustore ureq unow =
        .ok (⟨ureq.id, ureq.username, ureq.email, u.createdAt, unow⟩,
             updateUserFields hash ustore ureq unow)) := by
  refine ⟨?_, ?_, ?_, ?_⟩
  · intro habs
    have hrb := findTask_updateTaskFields store req now
    rw [habs] at hrb
    have hf : List.find? (fun p => p.1 == req.id) store = none := by
      simpa [findTask] using habs
    refine ⟨?_, map_patch_of_find?_none _ _ _ hf⟩
    simp [UpdateTask, hid, hrb]
  · intro t ht
    have hrb := findTask_updateTaskFields store req now
    rw [ht] at hrb
    simp [UpdateTask, hid, hrb, taskView, applyTaskPatch]
  · intro habs
    have hrb := findUser_updateUserFields hash ustore ureq unow
    rw [habs] at hrb
    have hf : List.find? (fun p => p.1 == ureq.id) ustore = none := by
      simpa [findUser] using habs
    refine ⟨?_, map_patch_of_find?_none _ _ _ hf⟩
    simp [UpdateUser, huid, hrb]
  · intro u hu
    have hrb := findUser_updateUserFields hash ustore ureq unow
    rw [hu] at hrb
    simp [UpdateUser, huid, hrb, userView_applyUserPatch]

/-- C2 witness: updating the existing task under
`0123456789abcdef01234567` returns the post-update state with the
requested title, description, completed flag and due date. -/
theorem C2_update_read_back_witness :
    UpdateTask
        [("0123456789abcdef01234567",
          ⟨"old", "odesc", "u1", false, "odue", "T0", "T1"⟩)]
        ⟨"0123456789abcdef01234567", "new", "ndesc", true, "ndue"⟩ "T2"
      = .ok (⟨"0123456789abcdef01234567", "new", "ndesc", "u1", true,
              "ndue", "T0", "T2"⟩,
             [("0123456789abcdef01234567",
               ⟨"new", "ndesc", "u1", true, "ndue", "T0", "T2"⟩)]) := by
  have h := (C2_update_read_back
    [("0123456789abcdef01234567",
      ⟨"old", "odesc", "u1", false, "odue", "T0", "T1"⟩)]
    ⟨"0123456789abcdef01234567", "new", "ndesc", true, "ndue"⟩ "T2"
    (by decide) (fun s => String.append "H" s) []
    ⟨"0123456789abcdef01234567", "alice", "a@x", ""⟩ "T3"
    (by decide)).2.1 ⟨"old", "odesc", "u1", false, "odue", "T0", "T1"⟩ rfl
  rw [h]
  rfl

/-- C7: for every User update on an existing record, the stored password
is left untouched when the request's password field is omitted or empty,
and is the re-hash of a non-empty new password otherwise; username, email
and the timestamps are updated identically in both cases, and the
response carries the patched public fields. -/
theorem C7_password_frame (hash : String → String) (store : UserStore)
    (req : UpdateUserRequest) (now : String)
    (hid : isValidObjectId req.id = true)
    (u : User) (hfind : findUser store req.id = some u) :
    UpdateUser hash store req now
      = .ok (⟨req.id, req.username, req.email, u.createdAt, now⟩,
             updateUserFields hash store req now) ∧
    findUser (updateUserFields hash store req now) req.id
      = some { username := req.username, email := req.email,
               password := if req.password = "" then u.password
                           else hash req.password,
               createdAt := u.createdAt, updatedAt := now } := by
  have hrb := findUser_updateUserFields hash store req now
  rw [hfind] at hrb
  constructor
  · simp [UpdateUser, hid, hrb, userView_applyUserPatch]
  · rw [hrb]
    unfold applyUserPatch
    by_cases hp : req.password = ""
    · simp [hp]
    · simp [hp]

/-- C7 witness: an update with an empty password field changes username,
email and the update timestamp but leaves the stored hash `OLDHASH`
untouched. -/
theorem C7_password_frame_witness :
    findUser (updateUserFields (fun s => String.append "H" s)
        [("0123456789abcdef01234567", ⟨"alice", "a@x", "OLDHASH", "T0", "T1"⟩)]
        ⟨"0123456789abcdef01234567", "bob", "b@x", ""⟩ "T2")
      "0123456789abcdef01234567"
      = some ⟨"bob", "b@x", "OLDHASH", "T0", "T2"⟩ := by
  have h := (C7_password_frame (fun s => String.append "H" s)
    [("0123456789abcdef01234567", ⟨"alice", "a@x", "OLDHASH", "T0", "T1"⟩)]
    ⟨"0123456789abcdef01234567", "bob", "b@x", ""⟩ "T2" (by decide)
    ⟨"alice", "a@x", "OLDHASH", "T0", "T1"⟩ rfl).2
  simpa using h

/-- C4: for every List query (Task and Notification) the returned page
holds at most `limit` items, and the returned total is the count of all
records matching the filter, unchanged under any other limit/page pair. -/
theorem C4_pagination_total (ts : TaskStore) (treq : ListTasksRequest)
    (ns : NotifStore) (nreq : GetNotificationsRequest) :
    (ListTasks ts treq).1.length ≤ treq.limit.toNat ∧
    (ListTasks ts treq).2 = (ts.filter (fun p => taskMatches treq p.2)).length ∧
    (∀ L P : Int,
      (ListTasks ts { treq with limit := L, page := P }).2 = (ListTasks ts treq).2) ∧
    (GetNotifications ns nreq).1.length ≤ nreq.limit.toNat ∧
    (GetNotifications ns nreq).2
      = (ns.filter (fun p => notifMatches nreq p.2)).length ∧
    (∀ L P : Int,
      (GetNotifications ns { nreq with limit := L, page := P }).2
        = (GetNotifications ns nreq).2) := by
  refine ⟨length_queryWindow_le _ _ _, rfl, ?_, length_queryWindow_le _ _ _, rfl, ?_⟩
  · intro L P
    rfl
  · intro L P
    rfl

/-- C5: for every List query with `limit ≤ 0` the returned items are
empty (no items, not unlimited), and for a positive limit the page is the
window of the filtered (for notifications: sorted) sequence starting at
offset `page * limit`. -/
theorem C5_limit_nonpositive_offset (ts : TaskStore) (treq : ListTasksRequest)
    (ns : NotifStore) (nreq : GetNotificationsRequest)
    (hT : treq.limit ≤ 0) (hN : nreq.limit ≤ 0) :
    (ListTasks ts treq).1 = [] ∧
    (GetNotifications ns nreq).1 = [] ∧
    (∀ L P : Int, 0 < L →
      (ListTasks ts { treq with limit := L, page := P }).1
        = (((ts.filter (fun p => taskMatches treq p.2)).map
              (fun p => taskView p.1 p.2)).drop (P * L).toNat).take L.toNat) ∧
    (∀ L P : Int, 0 < L →
      (GetNotifications ns { nreq with limit := L, page := P }).1
        = (((sortByCreatedDesc (ns.filter (fun p => notifMatches nreq p.2))).map
              (fun p => notificationView p.1 p.2)).drop (P * L).toNat).take L.toNat) := by
  refine ⟨?_, ?_, ?_, ?_⟩
  · simp [ListTasks, queryWindow, hT]
  · simp [GetNotifications, queryWindow, hN]
  · intro L P hL
    simp [ListTasks, queryWindow, not_le.mpr hL, taskMatches]
  · intro L P hL
    simp [GetNotifications, queryWindow, not_le.mpr hL, notifMatches]

/-- C5 witness: with limit 0 both list operations return no items even
over nonempty stores, and with limit 1 page 1 the task page is the window
skipping the first match. -/
theorem C5_limit_nonpositive_offset_witness :
    (ListTasks [("a", ⟨"t", "", "u1", false, "", "T0", "T0"⟩)]
      ⟨"u1", false, 0, 0⟩).1 = [] ∧
    (GetNotifications [("n", ⟨"u1", "m", false, "T0"⟩)]
      ⟨"u1", false, 0, 0⟩).1 = [] := by
  have h := C5_limit_nonpositive_offset
    [("a", ⟨"t", "", "u1", false, "", "T0", "T0"⟩)] ⟨"u1", false, 0, 0⟩
    [("n", ⟨"u1", "m", false, "T0"⟩)] ⟨"u1", false, 0, 0⟩
    (by decide) (by decide)
  exact ⟨h.1, h.2.1⟩

/-- C6: authenticating with a wrong password for an existing email fails
with the comparison's `authFailed` and the gateway writes HTTP 401 — the
same status the gateway writes whenever the email does not exist, so the
response status never reveals whether the email exists. -/
theorem C6_auth_wrong_password_status (checkPw : String → String → Bool)
    (store : UserStore) (req : AuthRequest) (entry : String × User)
    (hfind : findUserByEmail store req.email = some entry)
    (hpw : checkPw entry.2.password req.password = false) :
    AuthenticateUser checkPw store req = .error .authFailed ∧
    authHandlerStatus checkPw store req = 401 ∧
    (∀ (store' : UserStore) (req' : AuthRequest),
      findUserByEmail store' req'.email = none →
      authHandlerStatus checkPw store' req' = 401) := by
  obtain ⟨key, u⟩ := entry
  refine ⟨?_, ?_, ?_⟩
  · simp [AuthenticateUser, hfind, hpw]
  · simp [authHandlerStatus, AuthenticateUser, hfind, hpw]
  · intro store' req' habs
    simp [authHandlerStatus, AuthenticateUser, habs]

/-- C6 witness: with the stored hash `Hsecret` and the wrong password
`wrong`, authentication for the existing email `a@x` answers 401, as does
authentication for the absent email `b@x`. -/
theorem C6_auth_wrong_password_status_witness :
    authHandlerStatus (fun h p => h == String.append "H" p)
      [("0123456789abcdef01234567", ⟨"alice", "a@x", "Hsecret", "T0", "T0"⟩)]
      ⟨"a@x", "wrong"⟩ = 401 ∧
    authHandlerStatus (fun h p => h == String.append "H" p)
      [("0123456789abcdef01234567", ⟨"alice", "a@x", "Hsecret", "T0", "T0"⟩)]
      ⟨"b@x", "secret"⟩ = 401 := by
  have h := C6_auth_wrong_password_status (fun h p => h == String.append "H" p)
    [("0123456789abcdef01234567", ⟨"alice", "a@x", "Hsecret", "T0", "T0"⟩)]
    ⟨"a@x", "wrong"⟩
    ("0123456789abcdef01234567", ⟨"alice", "a@x", "Hsecret", "T0", "T0"⟩)
    rfl (by decide)
  exact ⟨h.2.1, h.2.2
    [("0123456789abcdef01234567", ⟨"alice", "a@x", "Hsecret", "T0", "T0"⟩)]
    ⟨"b@x", "secret"⟩ rfl⟩

/-- C3: the user service stores only the one-way hash of a caller-supplied
password and never echoes it: on create the stored password field is the
hash (hence differs from the plaintext whenever the hash does), the
created-response is independent of the supplied password; on update the
patched record's password differs from the supplied plaintext whenever
the pre-state's did and the hash does, and the update-response is
independent of the supplied password — the response type has no password
field at all. -/
theorem C3_password_never_plaintext (hash : String → String)
    (req : CreateUserRequest) (now newId : String)
    (store : UserStore) (ureq : UpdateUserRequest) (unow : String)
    (hnew : hash req.password ≠ req.password)
    (hupd : hash ureq.password ≠ ureq.password) :
    (CreateUser hash req now newId).2.password = hash req.password ∧
    (CreateUser hash req now newId).2.password ≠ req.password ∧
    (∀ p' : String,
      (CreateUser hash { req with password := p' } now newId).1
        = (CreateUser hash req now newId).1) ∧
    (∀ u : User, findUser store ureq.id = some u → u.password ≠ ureq.password →
      ∀ u' : User, findUser (updateUserFields hash store ureq unow) ureq.id = some u' →
        u'.password ≠ ureq.password) ∧
    (∀ p₁ p₂ : String,
      Except.map Prod.fst (UpdateUser hash store { ureq with password := p₁ } unow)
        = Except.map Prod.fst (UpdateUser hash store { ureq with password := p₂ } unow)) := by
  refine ⟨rfl, hnew, fun p' => rfl, ?_, ?_⟩
  · intro u hu hne u' hu'
    have hrb := findUser_updateUserFields hash store ureq unow
    rw [hu] at hrb
    rw [hrb] at hu'
    have : u' = applyUserPatch hash ureq unow u := by
      exact (Option.some.injEq _ _).mp hu'.symm
    subst this
    unfold applyUserPatch
    by_cases hp : ureq.password = ""
    · simpa [hp] using hne
    · simpa [hp] using hupd
  · intro p₁ p₂
    have h₁ := findUser_updateUserFields hash store { ureq with password := p₁ } unow
    have h₂ := findUser_updateUserFields hash store { ureq with password := p₂ } unow
    unfold UpdateUser
    cases hu : findUser store ureq.id with
    | none =>
      simp only at h₁ h₂
      rw [hu] at h₁ h₂
      simp [h₁, h₂]
    | some u =>
      simp only at h₁ h₂
      rw [hu] at h₁ h₂
      simp [h₁, h₂, userView_applyUserPatch]
      split <;> rfl

/-- C3 witness: creating the user `alice` with password `pw` under the
hash prepending `H` stores `Hpw`, which is not the plaintext, and the
response for password `other` is the same record as for `pw`. -/
theorem C3_password_never_plaintext_witness :
    (CreateUser (fun s => String.append "H" s) ⟨"alice", "a@x", "pw"⟩
      "T0" "id1").2.password ≠ "pw" ∧
    (CreateUser (fun s => String.append "H" s) ⟨"alice", "a@x", "other"⟩
      "T0" "id1").1
      = (CreateUser (fun s => String.append "H" s) ⟨"alice", "a@x", "pw"⟩
          "T0" "id1").1 := by
  have h := C3_password_never_plaintext (fun s => String.append "H" s)
    ⟨"alice", "a@x", "pw"⟩ "T0" "id1" []
    ⟨"0123456789abcdef01234567", "alice", "a@x", "pw2"⟩ "T1"
    (by decide) (by decide)
  exact ⟨h.2.1, h.2.2.1 "other"⟩

end TodoMicro
